import Mathlib

set_option maxRecDepth 100000

/-!
Verification development for the DeepSpeechAdversary victim API
(src/DeepSpeechSecEval/VictimAPI.py).

The file shallow-embeds the feature-extraction pipeline
(CarliniWagnerTransforms) and the decoding layer (Model.inference and the
four decoder strategies).  Waveform samples and scores are rationals; the
transcendental numeric kernels of the MFCC pipeline (Hamming window values,
rFFT, mel matmul, DCT, lifting) are tracked at tensor-shape level, which is
exactly what the claims about that part of the code concern; the
pre-emphasis stage, the framing stage and every shape or error decision are
embedded value-for-value from the source.  The external beam-search decoder
(ds_ctcdecoder) is an opaque collaborator and is passed around as a
function parameter; its batched form is modelled from the spec.
-/

deriving instance DecidableEq for Except

namespace VictimAPI

/-! ### Fixed configuration constants (CarliniWagnerTransforms.__init__) -/

/-- Sample rate of the input audio files (default argument). -/
def sample_rate : Nat := 16000

/-- window_size = int(0.032 * sample_rate) = 512. -/
def window_size : Nat := 512

/-- window_step = int(0.02 * sample_rate) = 320. -/
def window_step : Nat := 320

/-- n_ceps = 26 cepstral coefficients. -/
def n_ceps : Nat := 26

/-- n_contexts = 9 context frames on each side. -/
def n_contexts : Nat := 9

/-- tot_contexts = (n_context * 2) + 1 = 19. -/
def tot_contexts : Nat := 19

/-- cep_lifter = 22. -/
def cep_lifter : Nat := 22

/-- Number of bins a real FFT of window_size samples produces. -/
def rfft_bins : Nat := window_size / 2 + 1

/-! ### Python-level error outcomes

Fallible code is embedded into Except over this error type.  A typeError
or indexError is an unhandled interpreter-level crash; the other
constructors are exceptions the source raises deliberately. -/

inductive PyErr where
  | notImplementedError : PyErr
  | typeError : PyErr
  | indexError : PyErr
  | attributeError : String → PyErr
  | valueError : String → PyErr
  | exception : String → PyErr
  deriving DecidableEq

/-- A typeError or indexError is an unhandled crash at the point of use,
as opposed to an explicitly raised, catchable error report. -/
def PyErr.isCrash : PyErr → Bool
  | PyErr.typeError => true
  | PyErr.indexError => true
  | _ => false

/-- tf.stack of an empty list of tensors fails. -/
def stackEmptyMsg : String := "tf.stack needs at least one tensor"

/-- tf.stack of tensors with different shapes fails. -/
def stackMismatchMsg : String := "tf.stack shapes do not match"

/-- Elementwise multiply with the length-512 Hamming window fails on a
truncated frame. -/
def hammingMismatchMsg : String := "operands could not be broadcast with the hamming window"

/-- tf.concat on axis 1 requires the remaining axes to agree. -/
def concatMismatchMsg : String := "tf.concat dimension mismatch"

/-- window_ops guard message (source: You have not created an mfcc value
yet; paraphrased without the contraction). -/
def mfccNoneMsg : String := "You have not created an mfcc value yet!"

/-! ### Python range helper

range(0, stop, step) for a possibly negative stop and positive step. -/

/-- Number of elements of Python range(0, stop, step), step > 0. -/
def pyRangeLen (stop : Int) (step : Nat) : Nat :=
  if stop ≤ 0 then 0 else (stop.toNat + step - 1) / step

/-- The list produced by Python range(0, stop, step), step > 0. -/
def pyRange (stop : Int) (step : Nat) : List Nat :=
  (List.range (pyRangeLen stop step)).map (fun j => j * step)

/-! ### CarliniWagnerTransforms: value-level stages -/

/-- Pre-emphasis (mfcc_ops step 1):
tf.concat((audio[:, :1], audio[:, 1:] - 0.97 * audio[:, :-1]), 1),
embedded per batch item. -/
def preemphasis (x : List ℚ) : List ℚ :=
  x.take 1 ++ List.zipWith (fun a b => a - (97 / 100 : ℚ) * b) (x.drop 1) x.dropLast

/-- _window_generator: for i in range(0, size - window_step, window_step)
yield audio[:, i : i + window_size].  Python slicing clamps at the end of
the list, exactly as drop/take do. -/
def window_generator (audio : List ℚ) : List (List ℚ) :=
  (pyRange ((audio.length : Int) - (window_step : Int)) window_step).map
    (fun i => (audio.drop i).take window_size)

/-- mfcc_ops, per batch item, tracked to the shape of the produced mfcc
tensor: (number of frames, width of one frame feature vector).

Steps 1 and 2 (pre-emphasis, framing) are value-level; the numeric kernels
from the Hamming multiply onwards are transcendental and are tracked at
shape level: rfft keeps the frame count, the mel matmul against the
filterbank file (assumed well formed with numFilt filters, as the spec
makes a malformed filterbank a fatal load-time error) gives numFilt
columns, the DCT preserves the length and is truncated to the first n_ceps
coefficients, lifting is elementwise, and step 7 concatenates the log
energy column with feat[:, :, 1:].

Error behaviour embedded from the source: tf.stack fails on an empty frame
list and on frames of unequal length; the Hamming multiply fails when the
(single) frame is shorter than window_size. -/
def mfccFrames (audio : List ℚ) : List (List ℚ) :=
  window_generator (preemphasis audio)

/-- The shape and error outcome of mfcc_ops; see mfccFrames for the
step-by-step correspondence. -/
def mfccShape (numFilt : Nat) (audio : List ℚ) : Except PyErr (Nat × Nat) :=
  if (mfccFrames audio).isEmpty then Except.error (PyErr.valueError stackEmptyMsg)
  else if (mfccFrames audio).all (fun f => f.length = window_size) then
    Except.ok ((mfccFrames audio).length, 1 + (min n_ceps numFilt - 1))
  else if (mfccFrames audio).all (fun f => f.length = ((mfccFrames audio).headD []).length) then
    Except.error (PyErr.valueError hammingMismatchMsg)
  else Except.error (PyErr.valueError stackMismatchMsg)

/-- window_ops, per batch item, at shape level; nF and w are the two axes
of the mfcc tensor of one item.  Mirrors:
  features = tf.concat((empty_context, mfcc, empty_context), 1)
  features = tf.reshape(features, [batch_size, -1])
  features = tf.stack(lcomp(self._context_generator(features)), 1)
  features = tf.reshape(features, [batch_size, -1, tot_contexts, n_ceps])
where _context_generator yields
  feats[:, i : i + tot_contexts * n_ceps]
for i in range(0, feats.shape[1] - tot_contexts * n_ceps + 1, n_ceps).
The zero context padding is built with n_ceps columns, so the concat
requires w = n_ceps; the slices must all be full for the stack and the
final reshape to succeed. -/
def flatLen (nF : Nat) : Nat := (n_contexts + nF + n_contexts) * n_ceps

/-- The slice start offsets _context_generator yields over the flattened
(context padding ++ mfcc ++ context padding) row of one batch item. -/
def contextStarts (nF : Nat) : List Nat :=
  pyRange ((flatLen nF : Int) - ((tot_contexts * n_ceps : Nat) : Int) + 1) n_ceps

/-- The shape and error outcome of window_ops on an mfcc of nF frames of
width w; see the doc comment above flatLen. -/
def windowOpsShape (nF w : Nat) : Except PyErr (Nat × Nat × Nat) :=
  if w = n_ceps then
    if (contextStarts nF).isEmpty then Except.error (PyErr.valueError stackEmptyMsg)
    else if (contextStarts nF).all (fun i => i + tot_contexts * n_ceps ≤ flatLen nF) then
      Except.ok ((contextStarts nF).length, tot_contexts, n_ceps)
    else Except.error (PyErr.valueError stackMismatchMsg)
  else Except.error (PyErr.valueError concatMismatchMsg)

/-- The mutable fields of a CarliniWagnerTransforms instance that the
claims touch: the input audio and the lazily initialised mfcc and features
fields (shape level, per batch item). -/
structure CWTransforms where
  audio : List ℚ
  mfcc : Option (Nat × Nat)
  features : Option (Nat × Nat × Nat)
  deriving DecidableEq

/-- __init__ leaves self.mfcc = None and self.features = None. -/
def CWTransforms.init (audio : List ℚ) : CWTransforms :=
  { audio := audio, mfcc := none, features := none }

/-- mfcc_ops stores the computed mfcc on the instance. -/
def mfcc_ops (numFilt : Nat) (t : CWTransforms) : Except PyErr CWTransforms :=
  (mfccShape numFilt t.audio).map (fun s => { t with mfcc := some s })

/-- window_ops: raises AttributeError when mfcc has not been computed yet,
otherwise stores the stacked context features. -/
def window_ops (t : CWTransforms) : Except PyErr CWTransforms :=
  match t.mfcc with
  | none => Except.error (PyErr.attributeError mfccNoneMsg)
  | some s => (windowOpsShape s.1 s.2).map (fun r => { t with features := some r })

/-- The feature-extraction part of Model.create_graph:
feature_extraction.mfcc_ops() followed by feature_extraction.window_ops(). -/
def create_graph_features (numFilt : Nat) (audio : List ℚ) : Except PyErr CWTransforms :=
  (mfcc_ops numFilt (CWTransforms.init audio)).bind window_ops

/-! ### Decoding layer -/

/-- One frame of logits: a probability-like vector over the alphabet. -/
abbrev Frame := List ℚ

/-- The logits of one batch item: a list of frames. -/
abbrev ItemLogits := List Frame

/-- A decoding hypothesis as the external decoder returns it:
(score, transcript text). -/
abbrev Hyp := ℚ × String

/-- An opaque feed dictionary token. -/
abbrev Feed := Nat

/-- Modelled from the spec: ds_ctcdecoder.ctc_beam_search_decoder is the
external LM-scored beam-search decoder, opaque to this code; it consumes
the frames it is given and returns ranked (score, text) hypotheses.  The
decoder itself is an arbitrary function parameter dec; this wrapper applies
it to all given frames (no sequence length is passed at this call site). -/
def ctc_beam_search_decoder (dec : List Frame → List Hyp) (logits : List Frame) : List Hyp :=
  dec logits

/-- Modelled from the spec: ds_ctcdecoder.ctc_beam_search_decoder_batch
applies the single-sequence decoder to every batch item, with frames of
item i beyond its given sequence length ignored, and parallelization over
worker processes not changing the output. -/
def ctc_beam_search_decoder_batch (dec : List Frame → List Hyp)
    (logits : List ItemLogits) (seqLengths : List Nat) : List (List Hyp) :=
  (logits.zip seqLengths).map (fun pr => dec (pr.1.take pr.2))

/-- Model.ds_decode: runs the external decoder on one item with the LM
scorer.  np.squeeze of a (frames, alphabet) item is the identity here. -/
def ds_decode (dec : List Frame → List Hyp) (logits : ItemLogits) : List Hyp :=
  ctc_beam_search_decoder dec logits

/-- Model.ds_decode_batch: l = lengths[0] (IndexError on an empty list),
then the batch decoder is called with np.asarray([l for _ in
range(logits.shape[0])]), that is, the FIRST sequence length replicated for
every batch item. -/
def ds_decode_batch (dec : List Frame → List Hyp)
    (logits : List ItemLogits) (lengths : List Nat) : Except PyErr (List (List Hyp)) :=
  match lengths with
  | [] => Except.error PyErr.indexError
  | l :: _ => Except.ok (ctc_beam_search_decoder_batch dec logits (List.replicate logits.length l))

/-- The token string the dense tf decodes are joined with:
" abcdefghijklmnopqrstuvwxyz" followed by apostrophe and hyphen. -/
def tokens_list : List Char :=
  " abcdefghijklmnopqrstuvwxyz".toList ++ [Char.ofNat 39, Char.ofNat 45]

/-- tokens[int(x)] joined over a dense row; the decoder only emits
in-range ids, so the out-of-range default is never exercised. -/
def decode_tokens (ids : List Nat) : String :=
  String.mk (ids.map (fun x => tokens_list.getD x (Char.ofNat 32)))

/-- The collaborators and per-session fields of Model that inference uses.
The externally implemented operations (TF greedy decoder, TF beam decoder,
session runs of the two logits tensors, the LM beam decoder) are opaque
function parameters. -/
structure ModelParams where
  dec : List Frame → List Hyp
  gdec : List ItemLogits → List Nat → List (List Nat) × List (List ℚ)
  bdec : List ItemLogits → List Nat → List (List Nat)
  runRaw : Feed → List ItemLogits
  runLog : Feed → List ItemLogits
  featureLengths : List Nat
  batchSize : Nat
  decoderDefault : String

/-- Model.get_logits: asserting feed is not None; on failure it only
prints a message and falls through, implicitly returning None; otherwise
it runs the session on the logits tensor. -/
def get_logits (run : Feed → List ItemLogits) (feed : Option Feed) : Option (List ItemLogits) :=
  match feed with
  | none => none
  | some f => some (run f)

/-- The step shared by all inference branches: if logits is None, logits
is refetched as self.get_logits(tensor, feed). -/
def resolveLogits (run : Feed → List ItemLogits) (feed : Option Feed)
    (logits : Option (List ItemLogits)) : Option (List ItemLogits) :=
  match logits with
  | some l => some l
  | none => get_logits run feed

/-- Python list indexing: raises IndexError out of range. -/
def pyIndex (l : List α) (i : Nat) : Except PyErr α :=
  match l.get? i with
  | some a => Except.ok a
  | none => Except.error PyErr.indexError

/-- Double indexing xs[i][k]. -/
def pyIndex2 (l : List (List α)) (i k : Nat) : Except PyErr α :=
  (pyIndex l i).bind (fun row => pyIndex row k)

/-- Model.tf_greedy_decode: external tf.nn.ctc_greedy_decoder (opaque,
p.gdec) gives dense id rows and per-item log-prob rows; outputs are the
token joins and probs = [prob[0] for prob in probs] (headD stands for the
leading element of each, which the TF decoder always produces). -/
def tf_greedy_decode (p : ModelParams) (logits : List ItemLogits) : List String × List ℚ :=
  let r := p.gdec logits p.featureLengths
  (r.1.map decode_tokens, r.2.map (fun pr => pr.headD 0))

/-- Model.tf_beam_decode: external tf.nn.ctc_beam_search_decoder (opaque,
p.bdec) gives dense id rows; only the token joins are returned. -/
def tf_beam_decode (p : ModelParams) (logits : List ItemLogits) : List String :=
  (p.bdec logits p.featureLengths).map decode_tokens

/-- The dynamically-typed value Model.inference returns, one constructor
per shape the source can produce. -/
inductive InfRes where
  | strs : List String → InfRes
  | strsProbs : List String → List ℚ → InfRes
  | single : String → ℚ → InfRes
  | hypPairs : List Hyp → List Hyp → InfRes
  deriving DecidableEq

/-- Model.inference, embedded branch for branch from the source.

  * decoder resolution: the passed decoder name if any, else self.decoder;
  * tf branch: top_five raises NotImplementedError before anything else,
    otherwise the raw logits are resolved and tf_beam_decode runs;
  * ds branch: logits are resolved, every item is ds_decoded; with
    top_five the source takes probs = [decoding_probs[i][0] for i in
    range(0, 5)] and decodings = [decoding_probs[i][1] for i in
    range(0, 5)] (indexing batch items, and whole hypothesis pairs);
    without top_five it takes probs = decoding_probs[0][0][0] and
    decodings = decoding_probs[0][0][1] (batch item 0 only);
  * batch branch: logits are resolved, ds_decode_batch runs, and the
    top-five or top-one results are gathered per item;
  * greedy branch: raw logits are resolved and tf_greedy_decode runs
    (note: this branch never looks at top_five);
  * anything else raises the valid-decoder Exception.

Resolving logits when both the argument and the feed are None yields
None, and every consumer of that None crashes with an interpreter-level
error (iterating None in the ds branch, passing None to the external
decoders elsewhere), embedded as PyErr.typeError. -/
def inference (p : ModelParams) (decoderArg : Option String) (topFive : Bool)
    (feed : Option Feed) (logitsArg : Option (List ItemLogits)) : Except PyErr InfRes :=
  let d := decoderArg.getD p.decoderDefault
  if d = "tf" then
    if topFive then Except.error PyErr.notImplementedError
    else
      match resolveLogits p.runRaw feed logitsArg with
      | none => Except.error PyErr.typeError
      | some lg => Except.ok (InfRes.strs (tf_beam_decode p lg))
  else if d = "ds" then
    match resolveLogits p.runLog feed logitsArg with
    | none => Except.error PyErr.typeError
    | some lg =>
      let dps := lg.map (fun l => ds_decode p.dec l)
      if topFive then
        (((List.range 5).mapM (fun i => pyIndex2 dps i 0)).bind (fun probs =>
          ((List.range 5).mapM (fun i => pyIndex2 dps i 1)).map (fun decs =>
            InfRes.hypPairs decs probs)))
      else
        (pyIndex2 dps 0 0).map (fun best => InfRes.single best.2 best.1)
  else if d = "batch" then
    match resolveLogits p.runLog feed logitsArg with
    | none => Except.error PyErr.typeError
    | some lg =>
      (ds_decode_batch p.dec lg p.featureLengths).bind (fun dps =>
        if topFive then
          (((List.range 5).mapM (fun i =>
              (List.range p.batchSize).mapM (fun j =>
                (pyIndex2 dps j i).map (fun h => h.1)))).bind (fun probs =>
            ((List.range 5).mapM (fun i =>
              (List.range p.batchSize).mapM (fun j =>
                (pyIndex2 dps j i).map (fun h => h.2)))).map (fun decs =>
              InfRes.strsProbs decs.flatten probs.flatten)))
        else
          ((List.range p.batchSize).mapM (fun j => pyIndex2 dps j 0)).map (fun bests =>
            InfRes.strsProbs (bests.map (fun h => h.2)) (bests.map (fun h => h.1))))
  else if d = "greedy" then
    match resolveLogits p.runRaw feed logitsArg with
    | none => Except.error PyErr.typeError
    | some lg =>
      let r := tf_greedy_decode p lg
      Except.ok (InfRes.strsProbs r.1 r.2)
  else Except.error (PyErr.exception "Please choose a valid decoder -- tf, greedy, ds or batch")

/-! ### Session orchestration: the reset bracket of Model.tf_run -/

/-- The two session operations the bracket is made of: running the
initialize_state op, and running the requested tensors through the
acoustic model. -/
inductive SessOp where
  | resetOp : SessOp
  | runOp : SessOp
  deriving DecidableEq

/-- Model.reset_state: self.sess.run(self.__reset_rnn_state). -/
def reset_state_trace : List SessOp := [SessOp.resetOp]

/-- Model.tf_run: reset_state; sess.run(...); reset_state. -/
def tf_run_trace : List SessOp := reset_state_trace ++ [SessOp.runOp] ++ reset_state_trace

/-- Effect of one session op on the recurrent state: the reset op zeroes
it, a model run updates it through the opaque network transition f. -/
def stepOp (f : Int → Int) : SessOp → Int → Int
  | SessOp.resetOp, _ => 0
  | SessOp.runOp, s => f s

/-- Execute a trace of session ops from state s, returning the final
recurrent state and, for each executed op, the state it saw. -/
def execTrace (f : Int → Int) : List SessOp → Int → Int × List (SessOp × Int)
  | [], s => (s, [])
  | op :: rest, s =>
    let r := execTrace f rest (stepOp f op s)
    (r.1, (op, s) :: r.2)

/-! ### Concrete instantiations used by closed counterexamples -/

/-- A perfectly admissible instantiation of the opaque external beam
decoder: it reports how many frames it was given (as the score of its
single hypothesis), so the output reveals exactly which frames were
considered valid. -/
def dsDecFrameCount : List Frame → List Hyp :=
  fun fs => [((fs.length : ℚ), "n")]

/-- Concrete model collaborators for closed evaluations. -/
def params0 : ModelParams :=
  { dec := dsDecFrameCount
  , gdec := fun _ _ => ([[1, 2]], [[1]])
  , bdec := fun _ _ => []
  , runRaw := fun _ => []
  , runLog := fun _ => []
  , featureLengths := [1]
  , batchSize := 2
  , decoderDefault := "ds" }

/-- A two-item batch of logits: item 0 has one frame, item 1 has two. -/
def logitsTwoItems : List ItemLogits := [[[0]], [[0], [0]]]

/-- Like logitsTwoItems but item 1 has three frames; items agree on the
frames within their claimed sequence lengths below. -/
def logitsTwoItemsB : List ItemLogits := [[[0]], [[0], [0], [0]]]

/-! ## Helper lemmas -/

/-- Pre-emphasis keeps the length of the waveform. -/
theorem preemphasis_length (x : List ℚ) : (preemphasis x).length = x.length := by
  cases x with
  | nil => rfl
  | cons a l =>
    simp [preemphasis, List.length_zipWith, List.length_dropLast]

/-- Pointwise value of zipWith under getD, inside both bounds. -/
theorem zipWith_getD (f : ℚ → ℚ → ℚ) :
    ∀ (as bs : List ℚ) (i : Nat), i < as.length → i < bs.length →
      (List.zipWith f as bs).getD i 0 = f (as.getD i 0) (bs.getD i 0) := by
  intro as
  induction as with
  | nil => intro bs i h _; simp at h
  | cons a as ih =>
    intro bs i h1 h2
    cases bs with
    | nil => simp at h2
    | cons b bs =>
      cases i with
      | zero => rfl
      | succ s =>
        simp only [List.zipWith_cons_cons, List.getD_cons_succ]
        exact ih bs s (by simpa using h1) (by simpa using h2)

/-- dropLast agrees with the original list strictly before the last slot. -/
theorem dropLast_getD :
    ∀ (x : List ℚ) (i : Nat), i + 1 < x.length → x.dropLast.getD i 0 = x.getD i 0 := by
  intro x
  induction x with
  | nil => intro i h; simp at h
  | cons a l ih =>
    intro i h
    cases l with
    | nil => simp at h
    | cons b rest =>
      cases i with
      | zero => rfl
      | succ s =>
        simp only [List.dropLast_cons₂, List.getD_cons_succ]
        exact ih s (by simpa using h)

/-! ## Claim C5 -/

/-- C5: for every input waveform x, the pre-emphasis stage outputs y with
y[0] = x[0] (the boundary sample passed through unfiltered) and
y[t] = x[t] - 0.97 * x[t-1] for every t >= 1 (and y has the length of x). -/
theorem c5_preemphasis_values (x : List ℚ) :
    (preemphasis x).length = x.length ∧
    ∀ t : Nat, t < x.length →
      (preemphasis x).getD t 0 =
        if t = 0 then x.getD 0 0
        else x.getD t 0 - (97 / 100 : ℚ) * x.getD (t - 1) 0 := by
  refine ⟨preemphasis_length x, ?_⟩
  intro t ht
  cases x with
  | nil => simp at ht
  | cons a l =>
    cases t with
    | zero => rfl
    | succ s =>
      have hs : s < l.length := by simpa using ht
      have hdl : s < (a :: l).dropLast.length := by
        simpa [List.length_dropLast] using hs
      simp only [preemphasis, List.take_succ_cons, List.take_zero, List.drop_succ_cons,
        List.drop_zero, List.cons_append, List.nil_append, List.getD_cons_succ,
        if_neg (Nat.succ_ne_zero s), Nat.add_sub_cancel]
      rw [zipWith_getD _ l ((a :: l).dropLast) s hs hdl]
      rw [dropLast_getD (a :: l) s (by simpa using ht)]

/-- C5 witness: the theorem evaluated at x = [1, 2, 4], t = 1. -/
theorem c5_preemphasis_values_witness :
    (1 : Nat) < ([1, 2, 4] : List ℚ).length ∧
    (preemphasis [1, 2, 4]).getD 1 0 =
      (if (1 : Nat) = 0 then ([1, 2, 4] : List ℚ).getD 0 0
       else ([1, 2, 4] : List ℚ).getD 1 0 -
         (97 / 100 : ℚ) * ([1, 2, 4] : List ℚ).getD (1 - 1) 0) :=
  ⟨by decide, (c5_preemphasis_values [1, 2, 4]).2 1 (by decide)⟩

/-! ## Claim C8 -/

/-- C8: for every session run through the model (every execution of the
tf_run bracket), the recurrent state is reset to the zero state
immediately before and immediately after the run: whatever the incoming
state s and the opaque network transition f, the run op inside tf_run
executes at state 0, the bracket ends at state 0, and across two
consecutive tf_run brackets every run op still sees state 0, so state
never carries over between two inference invocations. -/
theorem c8_tf_run_resets_state (f : Int → Int) (s : Int) :
    execTrace f tf_run_trace s
      = (0, [(SessOp.resetOp, s), (SessOp.runOp, 0), (SessOp.resetOp, f 0)]) ∧
    (execTrace f (tf_run_trace ++ tf_run_trace) s).1 = 0 ∧
    ∀ q ∈ (execTrace f (tf_run_trace ++ tf_run_trace) s).2,
      q.1 = SessOp.runOp → q.2 = 0 := by
  refine ⟨rfl, rfl, ?_⟩
  intro q hq
  simp only [tf_run_trace, reset_state_trace, List.cons_append, List.nil_append,
    execTrace, stepOp, List.mem_cons, List.not_mem_nil, or_false] at hq
  rcases hq with h | h | h | h | h | h <;> subst h <;> simp

/-! ## Claim C10 -/

/-- C10: calling window_ops while the mfcc field is still None always
raises the AttributeError instead of computing features. -/
theorem c10_window_ops_requires_mfcc (t : CWTransforms) (h : t.mfcc = none) :
    window_ops t = Except.error (PyErr.attributeError mfccNoneMsg) := by
  unfold window_ops
  rw [h]

/-- C10 witness: a freshly constructed instance has mfcc = None and
window_ops on it raises the AttributeError. -/
theorem c10_window_ops_requires_mfcc_witness :
    (CWTransforms.init [1]).mfcc = none ∧
    window_ops (CWTransforms.init [1]) = Except.error (PyErr.attributeError mfccNoneMsg) :=
  ⟨rfl, c10_window_ops_requires_mfcc (CWTransforms.init [1]) rfl⟩

/-! ## Claim C1 -/

/-- C1 (code bug): the batched LM strategy is claimed to consider exactly
sequence_lengths[i] frames valid for batch item i; the code instead
truncates EVERY item to sequence_lengths[0].  Concretely, with per-item
lengths [1, 2] and a frame-count-revealing admissible decoder, item 1
(which has 2 frames and sequence length 2) is decoded from only 1 frame:
the batch call returns score 1 for it, while decoding the 2 frames its own
sequence length makes valid returns score 2. -/
theorem c1_ds_decode_batch_ignores_item_lengths :
    ds_decode_batch dsDecFrameCount logitsTwoItems [1, 2]
      = Except.ok [[(1, "n")], [(1, "n")]] ∧
    dsDecFrameCount (([[0], [0]] : ItemLogits).take 2) = [(2, "n")] := by
  decide

/-! ## Claim C2 -/

/-- C2 (code bug): in the ds branch, the claimed behaviour is the best
five hypotheses of EACH item (top_five) or the single best of EACH item.
The code instead (a) with top_five indexes decoding_probs[i] over batch
items i in range(0, 5), so a two-item batch raises IndexError; (b) without
top_five returns only decoding_probs[0][0], so the output is identical for
two logits batches that differ in item 1 even though the admissible
decoder distinguishes the two versions of item 1. -/
theorem c2_ds_top_five_misindexes :
    inference params0 (some "ds") true none (some logitsTwoItems)
      = Except.error PyErr.indexError ∧
    inference params0 (some "ds") false none (some logitsTwoItems)
      = inference params0 (some "ds") false none (some logitsTwoItemsB) ∧
    inference params0 (some "ds") false none (some logitsTwoItems)
      = Except.ok (InfRes.single "n" 1) ∧
    dsDecFrameCount [[0], [0]] ≠ dsDecFrameCount [[0], [0], [0]] := by
  decide

/-! ## Claim C3 -/

/-- C3 counterexample: inference with top_five = true and the greedy
strategy does NOT raise; it returns a normal single-hypothesis result. -/
theorem c3_greedy_top_five_returns_normally :
    inference params0 (some "greedy") true none (some logitsTwoItems)
      = Except.ok (InfRes.strsProbs ["ab"] [1]) ∧
    (Except.ok (InfRes.strsProbs ["ab"] [1]) : Except PyErr InfRes)
      ≠ Except.error PyErr.notImplementedError := by
  decide

/-- C3 amended: the documented NotImplementedError guard exists only in
the tf branch; inference with top_five = true and the tf strategy raises
it before any decoding, while the greedy strategy ignores top_five
entirely and returns exactly what it returns for top_five = false. -/
theorem c3_amended_tf_guards_greedy_ignores (p : ModelParams) (feed : Option Feed)
    (lg : Option (List ItemLogits)) (b : Bool) :
    inference p (some "tf") true feed lg = Except.error PyErr.notImplementedError ∧
    inference p (some "greedy") b feed lg = inference p (some "greedy") false feed lg :=
  ⟨rfl, rfl⟩

/-! ## Claim C7 -/

/-- C7 counterexample: a batch of two identical three-frame items with
sequence lengths [2, 2]: the batched strategy decodes 2 frames per item
while the non-batched strategy run on each item alone decodes all 3, so
the two disagree item for item for the frame-count-revealing admissible
decoder. -/
theorem c7_batch_differs_from_single :
    ds_decode_batch dsDecFrameCount [[[0], [0], [0]], [[0], [0], [0]]] [2, 2]
      ≠ Except.ok ([[[0], [0], [0]], [[0], [0], [0]]].map
          (fun it => ds_decode dsDecFrameCount it)) := by
  decide

/-- Mapping a two-argument function over a list zipped with that many
copies of a constant is mapping the partially applied function. -/
theorem zip_replicate_map {α β : Type} (g : α → Nat → β) :
    ∀ (xs : List α) (c : Nat),
      (xs.zip (List.replicate xs.length c)).map (fun p => g p.1 p.2)
        = xs.map (fun x => g x c) := by
  intro xs c
  induction xs with
  | nil => rfl
  | cons a l ih => simp only [List.length_cons, List.replicate_succ, List.zip_cons_cons,
      List.map_cons, ih]

/-- C7 amended: for every nonempty lengths vector, the batched strategy
produces for every batch item exactly the result of the non-batched strategy on
that item truncated to the FIRST sequence length lengths[0]; so the two
strategies agree item for item only when that truncation does not change
any item (for example when lengths[0] covers every frame). -/
theorem c7_amended_batch_truncates_to_first_length (dec : List Frame → List Hyp)
    (logits : List ItemLogits) (l : Nat) (rest : List Nat) :
    ds_decode_batch dec logits (l :: rest)
      = Except.ok (logits.map (fun it => ds_decode dec (it.take l))) := by
  unfold ds_decode_batch ctc_beam_search_decoder_batch ds_decode ctc_beam_search_decoder
  exact congrArg Except.ok (zip_replicate_map (fun x c => dec (x.take c)) logits l)

/-! ## Claim C9 -/

/-- C9 counterexample: inference with logits = None and feed = None does
crash: the ds branch iterates the None that get_logits fell through with,
an interpreter-level TypeError rather than an explicit usage error. -/
theorem c9_none_feed_crashes :
    inference params0 (some "ds") false none none = Except.error PyErr.typeError ∧
    PyErr.isCrash PyErr.typeError = true := by
  decide

/-- C9 amended: for every model and either top_five setting, calling the
ds strategy with logits = None and feed = None makes get_logits return
None (after only printing a message) and inference then crashes with a
TypeError; no recoverable usage error distinct from configuration errors
reaches the caller. -/
theorem c9_amended_none_feed_typeerror (p : ModelParams) (b : Bool) :
    inference p (some "ds") b none none = Except.error PyErr.typeError ∧
    get_logits p.runLog none = none :=
  ⟨rfl, rfl⟩

/-! ## Claim C4 -/

/-- On a waveform shorter than one window the MFCC stage always fails:
either the frame list is empty (tf.stack of nothing) or its single
truncated frame cannot be multiplied with the length-512 Hamming window. -/
theorem mfccShape_isOk_false (numFilt : Nat) (audio : List ℚ)
    (h : audio.length < window_size) : (mfccShape numFilt audio).isOk = false := by
  by_cases hE : (mfccFrames audio).isEmpty
  · rw [mfccShape, if_pos hE]
    rfl
  · have hne : mfccFrames audio ≠ [] := by
      intro hnil
      rw [hnil] at hE
      simp at hE
    have hmem : (preemphasis audio).take window_size ∈ mfccFrames audio := by
      unfold mfccFrames window_generator
      refine List.mem_map.mpr ⟨0, ?_, by rw [List.drop_zero]⟩
      unfold pyRange
      refine List.mem_map.mpr ⟨0, ?_, by simp⟩
      refine List.mem_range.mpr ?_
      by_contra h0
      have hz : pyRangeLen (((preemphasis audio).length : Int) - (window_step : Int))
          window_step = 0 := by omega
      refine hne ?_
      unfold mfccFrames window_generator pyRange
      rw [hz]
      rfl
    have hflen : ((preemphasis audio).take window_size).length = audio.length := by
      rw [List.length_take, preemphasis_length]
      omega
    have hall : (mfccFrames audio).all (fun f => f.length = window_size) = false := by
      cases hA : (mfccFrames audio).all (fun f => f.length = window_size)
      · rfl
      · exfalso
        have hx := List.all_eq_true.mp hA _ hmem
        simp only [decide_eq_true_eq] at hx
        rw [hflen] at hx
        exact absurd hx (Nat.ne_of_lt h)
    rw [mfccShape, if_neg hE, if_neg (by simp [hall])]
    split <;> rfl

/-- C4 amended: for every waveform strictly shorter than window_size, the
feature pipeline raises an exception (tf.stack of an empty frame list when
the waveform fits in one step, Hamming broadcast mismatch on the truncated
window otherwise); it never produces zero frames and an empty transcript. -/
theorem c4_amended_short_waveform_raises (numFilt : Nat) (audio : List ℚ)
    (h : audio.length < window_size) :
    (create_graph_features numFilt audio).isOk = false := by
  have hm := mfccShape_isOk_false numFilt audio h
  simp only [create_graph_features, mfcc_ops, CWTransforms.init]
  cases hmm : mfccShape numFilt audio with
  | error e => rfl
  | ok s =>
    rw [hmm] at hm
    simp [Except.isOk, Except.toBool] at hm

/-- C4 witness: the amended theorem evaluated at the one-sample waveform. -/
theorem c4_amended_short_waveform_raises_witness :
    ([(1 : ℚ)] : List ℚ).length < window_size ∧
    (create_graph_features 26 [(1 : ℚ)]).isOk = false :=
  ⟨by decide, c4_amended_short_waveform_raises 26 [(1 : ℚ)] (by decide)⟩

/-- C4 counterexample: the claim promises zero frames, an empty transcript
and no exception for every waveform shorter than window_size; in fact a
1-sample waveform fails in tf.stack and a 400-sample waveform (which even
yields one truncated frame, not zero) fails in the Hamming multiply. -/
theorem c4_short_waveform_raises_counterexample :
    ([(0 : ℚ)] : List ℚ).length < window_size ∧
    (List.replicate 400 (0 : ℚ)).length < window_size ∧
    create_graph_features 26 [(0 : ℚ)]
      = Except.error (PyErr.valueError stackEmptyMsg) ∧
    create_graph_features 26 (List.replicate 400 (0 : ℚ))
      = Except.error (PyErr.valueError hammingMismatchMsg) := by
  decide

/-! ## Claim C6 -/

/-- If mfcc_ops succeeds then at least one frame was produced and the
per-frame feature width is 1 + (min n_ceps numFilt - 1). -/
theorem mfccShape_ok_inv (numFilt : Nat) (audio : List ℚ) (s : Nat × Nat)
    (h : mfccShape numFilt audio = Except.ok s) :
    1 ≤ s.1 ∧ s.2 = 1 + (min n_ceps numFilt - 1) := by
  rw [mfccShape] at h
  by_cases hE : (mfccFrames audio).isEmpty
  · rw [if_pos hE] at h
    exact absurd h (by simp)
  · rw [if_neg hE] at h
    by_cases hA : (mfccFrames audio).all (fun f => f.length = window_size)
    · rw [if_pos hA] at h
      simp only [Except.ok.injEq] at h
      subst h
      refine ⟨?_, rfl⟩
      cases hfr : mfccFrames audio with
      | nil => rw [hfr] at hE; simp at hE
      | cons a l => simp
    · rw [if_neg hA] at h
      split at h <;> exact absurd h (by simp)

/-- The context slice start offsets are j * n_ceps for j < nF. -/
theorem contextStarts_eq (nF : Nat) (h : 1 ≤ nF) :
    contextStarts nF = (List.range nF).map (fun j => j * n_ceps) := by
  have hlen : pyRangeLen ((flatLen nF : Int) - ((tot_contexts * n_ceps : Nat) : Int) + 1)
      n_ceps = nF := by
    unfold pyRangeLen flatLen
    simp only [n_contexts, n_ceps, tot_contexts]
    split
    · next hle =>
      exfalso
      omega
    · next hgt =>
      omega
  unfold contextStarts pyRange
  rw [hlen]

/-- Once the mfcc of one item has nF ≥ 1 frames of width n_ceps,
window_ops succeeds and stacks nF context blocks of tot_contexts frames of
n_ceps coefficients each. -/
theorem windowOpsShape_pos (nF : Nat) (h : 1 ≤ nF) :
    windowOpsShape nF n_ceps = Except.ok (nF, tot_contexts, n_ceps) := by
  have hcs := contextStarts_eq nF h
  have hlen : (contextStarts nF).length = nF := by
    rw [hcs]
    simp
  have hne : (contextStarts nF).isEmpty = false := by
    cases hcase : contextStarts nF with
    | nil => rw [hcase] at hlen; simp at hlen; omega
    | cons a l => rfl
  have hall : (contextStarts nF).all
      (fun i => i + tot_contexts * n_ceps ≤ flatLen nF) = true := by
    rw [hcs, List.all_eq_true]
    intro x hx
    simp only [List.mem_map, List.mem_range] at hx
    obtain ⟨j, hj, hje⟩ := hx
    subst hje
    simp only [decide_eq_true_eq, flatLen, n_contexts, n_ceps, tot_contexts]
    omega
  rw [windowOpsShape, if_pos rfl, if_neg (by simp [hne]), if_pos hall, hlen]

/-- C6 amended: whenever the MFCC stage succeeds (which requires framing
to produce at least one full window) and the filterbank has at least
n_ceps filters, the feature tensor stacked by window_ops has context axis
exactly tot_contexts = 19 and last axis exactly n_ceps = 26. -/
theorem c6_amended_feature_axes (numFilt : Nat) (audio : List ℚ) (t : CWTransforms)
    (hfilt : n_ceps ≤ numFilt)
    (h : create_graph_features numFilt audio = Except.ok t) :
    t.features.map (fun s => (s.2.1, s.2.2)) = some (tot_contexts, n_ceps) := by
  simp only [create_graph_features, mfcc_ops, CWTransforms.init] at h
  cases hmm : mfccShape numFilt audio with
  | error e =>
    rw [hmm] at h
    exact absurd h (by simp [Except.map, Except.bind])
  | ok s =>
    rw [hmm] at h
    obtain ⟨h1, h2⟩ := mfccShape_ok_inv numFilt audio s hmm
    have hw : s.2 = n_ceps := by
      rw [h2, Nat.min_eq_left hfilt]
      decide
    simp only [Except.map, Except.bind] at h
    -- h : window_ops { audio := audio, mfcc := some s, features := none } = ok t
    unfold window_ops at h
    dsimp only at h
    rw [hw, windowOpsShape_pos s.1 h1] at h
    simp only [Except.map, Except.ok.injEq] at h
    subst h
    rfl

/-- C6 witness: the amended theorem evaluated on a 512-sample waveform
(exactly one full window) with 26 mel filters. -/
theorem c6_amended_feature_axes_witness :
    ({ audio := List.replicate 512 (0 : ℚ), mfcc := some (1, 26),
       features := some (1, 19, 26) } : CWTransforms).features.map
        (fun s => (s.2.1, s.2.2)) = some (tot_contexts, n_ceps) :=
  c6_amended_feature_axes 26 (List.replicate 512 (0 : ℚ)) _ (by decide) (by decide)

/-- C6 counterexample: a 641-sample waveform is at least one window long
(window_size = 512), yet the pipeline produces no feature tensor of any
shape: framing yields one full and one truncated window and tf.stack
fails, so the claimed shape invariant does not hold regardless of input
length. -/
theorem c6_truncated_window_counterexample :
    window_size ≤ (List.replicate 641 (0 : ℚ)).length ∧
    create_graph_features 26 (List.replicate 641 (0 : ℚ))
      = Except.error (PyErr.valueError stackMismatchMsg) := by
  decide

end VictimAPI
